import Mathlib

/-!
Shallow embedding of the core logic of TravelViz (`app.py`): JSON persistence
with schema backfill (`load_users`, `load_trips`, `save_trips`), the badge
calculator (`get_user_badge`), the geocode fallback
(`fallback_coords_for_destination`), the expense aggregation of the Insights
page, date parsing (`parse_date_str`) and the reminder computation
(`trigger_reminders`), together with theorems settling the specification
claims about them.

Python machine-level details are modelled as follows: JSON values are an
inductive `Json` with rational numbers standing for Python floats (all
constants appearing in the program are exactly representable); Python
exceptions are `Except String` results; Python dicts are ordered association
lists (CPython dicts preserve insertion order, which the spec makes part of
the observable contract).
-/

namespace TravelViz

/-- JSON/Python values as produced by `json.load`: null, booleans, numbers
(Python floats/ints, modelled as rationals), strings, arrays and objects.
Objects are ordered association lists, mirroring CPython's insertion-ordered
dicts. -/
inductive Json where
  | null : Json
  | boolean : Bool → Json
  | num : ℚ → Json
  | str : String → Json
  | arr : List Json → Json
  | obj : List (String × Json) → Json

/-- Model of Python `dict.get(k, default)` on an object's field list: the value
stored at the first occurrence of key `k`, or `default` when `k` is absent. -/
def pyGet : List (String × Json) → String → Json → Json
  | [], _, d => d
  | (k1, v) :: rest, k, d => if k1 = k then v else pyGet rest k d

/-- Model of Python `dict.setdefault(k, v)` on an object's field list: if the
key is present the list is unchanged; otherwise `(k, v)` is appended at the
end (CPython inserts new keys at the end of the iteration order). -/
def setdefault (o : List (String × Json)) (k : String) (v : Json) :
    List (String × Json) :=
  if o.any (fun p => p.1 = k) then o else o ++ [(k, v)]

-- ======================= Badge calculator =======================

/-- The `tiers` table of `get_user_badge` (app.py lines 95-101), in source
order. Thresholds are Python ints, modelled as `Int`. -/
def tiers : List (String × Int) :=
  [("New Traveler", 0),
   ("Explorer", 1),
   ("Adventurer", 3),
   ("Globetrotter", 6),
   ("World Citizen", 10)]

/-- The `for i in range(len(tiers))` loop of `get_user_badge` (app.py lines
106-113): walks the remaining tiers carrying the current index `i` and the
accumulator `(current_badge, level_index, next_threshold)`; on
`trip_count >= threshold` it updates the accumulator (with
`tiers[i+1][1] if i + 1 < len(tiers) else None`, i.e. the head of the rest),
otherwise it `break`s, returning the accumulator. -/
def badgeLoop (trip_count : Int) :
    List (String × Int) → Nat → (String × Nat × Option Int) →
    String × Nat × Option Int
  | [], _, acc => acc
  | (name, threshold) :: rest, i, acc =>
    if trip_count ≥ threshold then
      badgeLoop trip_count rest (i + 1) (name, i, (rest.head?).map Prod.snd)
    else acc

/-- `get_user_badge` (app.py lines 94-114): initial accumulator
`(tiers[0][0], 0, tiers[1][1])`, then the scan loop. -/
def get_user_badge (trip_count : Int) : String × Nat × Option Int :=
  badgeLoop trip_count tiers 0 ("New Traveler", 0, some 1)

/-- The spec's description of the badge algorithm (spec §4.3): select the
highest tier whose threshold is ≤ `trip_count`; `next_threshold` is the
threshold of the tier immediately above the selected one, or null when the
selected tier is the last. -/
def spec_badge (trip_count : Int) : String × Nat × Option Int :=
  let eligible :=
    (List.range tiers.length).filter
      (fun i => (tiers.getD i ("", 0)).2 ≤ trip_count)
  let i := eligible.getLastD 0
  ((tiers.getD i ("", 0)).1, i,
    if i + 1 < tiers.length then some ((tiers.getD (i + 1) ("", 0)).2) else none)


/-- Case analysis of `get_user_badge` on the five threshold intervals, for
non-negative trip counts. -/
theorem badge_cases (n : Int) (hn : 0 ≤ n) :
    get_user_badge n =
      (if n < 1 then ("New Traveler", 0, some 1)
       else if n < 3 then ("Explorer", 1, some 3)
       else if n < 6 then ("Adventurer", 2, some 6)
       else if n < 10 then ("Globetrotter", 3, some 10)
       else ("World Citizen", 4, none)) := by
  simp only [get_user_badge, badgeLoop, tiers, List.head?, Option.map, ge_iff_le]
  split_ifs <;> first | rfl | omega

theorem spec_badge_cases (n : Int) (hn : 0 ≤ n) :
    spec_badge n =
      (if n < 1 then ("New Traveler", 0, some 1)
       else if n < 3 then ("Explorer", 1, some 3)
       else if n < 6 then ("Adventurer", 2, some 6)
       else if n < 10 then ("Globetrotter", 3, some 10)
       else ("World Citizen", 4, none)) := by
  rcases lt_or_le n 1 with h1 | h1
  · have e0 : decide ((0:Int) ≤ n) = true := by simp [hn]
    have e1 : decide ((1:Int) ≤ n) = false := by simp; omega
    have e2 : decide ((3:Int) ≤ n) = false := by simp; omega
    have e3 : decide ((6:Int) ≤ n) = false := by simp; omega
    have e4 : decide ((10:Int) ≤ n) = false := by simp; omega
    simp [spec_badge, tiers, List.filter, List.getD, List.range, List.range.loop,
      e0, e1, e2, e3, e4, h1, hn]
  · rcases lt_or_le n 3 with h2 | h2
    · have e0 : decide ((0:Int) ≤ n) = true := by simp [hn]
      have e1 : decide ((1:Int) ≤ n) = true := by simp [h1]
      have e2 : decide ((3:Int) ≤ n) = false := by simp; omega
      have e3 : decide ((6:Int) ≤ n) = false := by simp; omega
      have e4 : decide ((10:Int) ≤ n) = false := by simp; omega
      simp [spec_badge, tiers, List.filter, List.getD, List.range, List.range.loop,
        e0, e1, e2, e3, e4, h2, show ¬ n < 1 from by omega]
    · rcases lt_or_le n 6 with h3 | h3
      · have e0 : decide ((0:Int) ≤ n) = true := by simp [hn]
        have e1 : decide ((1:Int) ≤ n) = true := by simp [h1]
        have e2 : decide ((3:Int) ≤ n) = true := by simp [h2]
        have e3 : decide ((6:Int) ≤ n) = false := by simp; omega
        have e4 : decide ((10:Int) ≤ n) = false := by simp; omega
        simp [spec_badge, tiers, List.filter, List.getD, List.range, List.range.loop,
          e0, e1, e2, e3, e4, h3, show ¬ n < 1 from by omega,
          show ¬ n < 3 from by omega]
      · rcases lt_or_le n 10 with h4 | h4
        · have e0 : decide ((0:Int) ≤ n) = true := by simp [hn]
          have e1 : decide ((1:Int) ≤ n) = true := by simp [h1]
          have e2 : decide ((3:Int) ≤ n) = true := by simp [h2]
          have e3 : decide ((6:Int) ≤ n) = true := by simp [h3]
          have e4 : decide ((10:Int) ≤ n) = false := by simp; omega
          simp [spec_badge, tiers, List.filter, List.getD, List.range, List.range.loop,
            e0, e1, e2, e3, e4, h4, show ¬ n < 1 from by omega,
            show ¬ n < 3 from by omega, show ¬ n < 6 from by omega]
        · have e0 : decide ((0:Int) ≤ n) = true := by simp [hn]
          have e1 : decide ((1:Int) ≤ n) = true := by simp [h1]
          have e2 : decide ((3:Int) ≤ n) = true := by simp [h2]
          have e3 : decide ((6:Int) ≤ n) = true := by simp [h3]
          have e4 : decide ((10:Int) ≤ n) = true := by simp [h4]
          simp [spec_badge, tiers, List.filter, List.getD, List.range, List.range.loop,
            e0, e1, e2, e3, e4, show ¬ n < 1 from by omega,
            show ¬ n < 3 from by omega, show ¬ n < 6 from by omega,
            show ¬ n < 10 from by omega]

/-- C3: for every non-negative integer trip count, `get_user_badge` selects the
highest tier whose threshold is at most the trip count and returns that tier's
name, its index, and the threshold of the tier immediately above (none when
the selected tier is the last), as described by `spec_badge`; concretely,
`get_user_badge 0 = ("New Traveler", 0, some 1)`,
`get_user_badge 3 = ("Adventurer", 2, some 6)`,
`get_user_badge 10 = ("World Citizen", 4, none)` and
`get_user_badge 999 = ("World Citizen", 4, none)`. -/
theorem c3_badge_matches_spec :
    (∀ n : Int, 0 ≤ n → get_user_badge n = spec_badge n) ∧
    get_user_badge 0 = ("New Traveler", 0, some 1) ∧
    get_user_badge 3 = ("Adventurer", 2, some 6) ∧
    get_user_badge 10 = ("World Citizen", 4, none) ∧
    get_user_badge 999 = ("World Citizen", 4, none) := by
  refine ⟨fun n hn => (badge_cases n hn).trans (spec_badge_cases n hn).symm,
    ?_, ?_, ?_, ?_⟩ <;> decide

/-- Witness for C3: the general part of the theorem applied at trip count 7. -/
theorem c3_badge_matches_spec_witness :
    get_user_badge 7 = spec_badge 7 :=
  c3_badge_matches_spec.1 7 (by decide)

/-- C4: for every non-negative integer `n`, the `next_threshold` component of
`get_user_badge n` is either none or strictly greater than `n`. -/
theorem c4_next_threshold_above (n : Int) (hn : 0 ≤ n) (t : Int)
    (ht : (get_user_badge n).2.2 = some t) : n < t := by
  rw [badge_cases n hn] at ht
  split_ifs at ht <;> simp only [Option.some.injEq] at ht <;> omega

/-- Witness for C4: at trip count 0 the next threshold is 1, and 0 < 1. -/
theorem c4_next_threshold_above_witness :
    0 ≤ (0 : Int) ∧ (get_user_badge 0).2.2 = some 1 ∧ (0 : Int) < 1 :=
  ⟨by decide, by decide, c4_next_threshold_above 0 (by decide) 1 (by decide)⟩

/-- C10: for every negative integer trip count the scan's first comparison
fails, so `get_user_badge` returns its initial defaults
`("New Traveler", 0, some 1)` — the same value as for trip count 0. -/
theorem c10_negative_trip_count (n : Int) (hn : n < 0) :
    get_user_badge n = ("New Traveler", 0, some 1) ∧
    get_user_badge n = get_user_badge 0 := by
  have h : get_user_badge n = ("New Traveler", 0, some 1) := by
    simp only [get_user_badge, badgeLoop, tiers, List.head?, Option.map, ge_iff_le]
    split_ifs <;> first | rfl | omega
  exact ⟨h, h.trans (by decide)⟩

/-- Witness for C10: the theorem applied at trip count -5. -/
theorem c10_negative_trip_count_witness :
    get_user_badge (-5) = ("New Traveler", 0, some 1) ∧
    get_user_badge (-5) = get_user_badge 0 :=
  c10_negative_trip_count (-5) (by decide)

-- ======================= Geocode fallback =======================

/-- Model of Python `str.lower` on one character (ASCII range, which covers
every key of the fallback table and every input the claims use). -/
def pyLowerChar (c : Char) : Char :=
  if 'A' ≤ c ∧ c ≤ 'Z' then Char.ofNat (c.toNat + 32) else c

/-- Model of Python `str.strip`'s whitespace test (ASCII whitespace). -/
def pyIsSpace (c : Char) : Bool :=
  c = ' ' || c = '\t' || c = '\n' || c = '\r'

/-- Model of Python `str.strip()`: drop whitespace from both ends. -/
def pyStrip (l : List Char) : List Char :=
  ((l.dropWhile pyIsSpace).reverse.dropWhile pyIsSpace).reverse

/-- Whether the first list is a prefix of the second (Boolean). -/
def startsWithChars : List Char → List Char → Bool
  | [], _ => true
  | _ :: _, [] => false
  | a :: as, b :: bs => a = b && startsWithChars as bs

/-- Model of Python's substring test `needle in hay` on strings as char
lists: the needle starts at some position of the hay. -/
def occursIn (needle : List Char) : List Char → Bool
  | [] => startsWithChars needle []
  | c :: t => startsWithChars needle (c :: t) || occursIn needle t

/-- `FALLBACK_CENTROIDS` (app.py lines 247-254) in source (dict insertion)
order; Python float literals are exactly representable rationals here. -/
def FALLBACK_CENTROIDS : List (String × ℚ × ℚ) :=
  [("france", (46.2, 2.2)),
   ("paris", (48.85, 2.35)),
   ("india", (20.59, 78.96)),
   ("usa", (37.09, -95.71)),
   ("japan", (36.20, 138.25)),
   ("tokyo", (35.67, 139.65))]

/-- The `for k, v in FALLBACK_CENTROIDS.items()` loop of
`fallback_coords_for_destination` (app.py lines 257-260): return the value of
the first key occurring in the prepared input, else None. -/
def centroidLoop (key : List Char) : List (String × ℚ × ℚ) → Option (ℚ × ℚ)
  | [] => none
  | (k, v) :: rest => if occursIn k.toList key then some v else centroidLoop key rest

/-- `fallback_coords_for_destination` (app.py lines 255-260):
`key = dest.strip().lower()`, then the first-match table scan. -/
def fallback_coords_for_destination (dest : String) : Option (ℚ × ℚ) :=
  centroidLoop ((pyStrip dest.toList).map pyLowerChar) FALLBACK_CENTROIDS

/-- The table scan returns the value of the first matching entry, in table
iteration order. -/
theorem centroidLoop_eq_find (key : List Char) (l : List (String × ℚ × ℚ)) :
    centroidLoop key l = (l.find? fun p => occursIn p.1.toList key).map Prod.snd := by
  induction l with
  | nil => rfl
  | cons p rest ih =>
    obtain ⟨k, v⟩ := p
    simp only [centroidLoop, List.find?]
    by_cases h : occursIn k.toList key
    · simp only [String.toList] at h
      simp [h]
    · rw [Bool.not_eq_true] at h
      simp only [String.toList] at h
      simp [h, ih]

/-- C1 counterexample: on input "Paris, France" the fallback geocoder returns
the table's "france" entry (46.2, 2.2) — "france" precedes "paris" in table
iteration order and occurs as a substring of "paris, france" — and not the
"paris" entry (48.85, 2.35) the claim states. -/
theorem c1_counterexample :
    fallback_coords_for_destination "Paris, France" = some (46.2, 2.2) ∧
    fallback_coords_for_destination "Paris, France" ≠ some (48.85, 2.35) := by
  constructor
  · rfl
  · intro h
    rw [show fallback_coords_for_destination "Paris, France"
          = some ((46.2 : ℚ), (2.2 : ℚ)) from rfl] at h
    simp only [Option.some.injEq, Prod.mk.injEq] at h
    exact absurd h.1 (by norm_num)

/-- C1 (amended): the fallback geocoder lower-cases and trims the input and
returns the coordinates of the first table key, in table iteration order,
that occurs as a substring of the input (none when no key matches); for
"Paris, France" the first such key is "france", so it returns the table's
"france" entry (46.2, 2.2). -/
theorem c1_first_match_in_table_order :
    fallback_coords_for_destination "Paris, France" = some (46.2, 2.2) ∧
    ∀ dest : String,
      fallback_coords_for_destination dest =
        (FALLBACK_CENTROIDS.find? fun p =>
          occursIn p.1.toList ((pyStrip dest.toList).map pyLowerChar)).map Prod.snd :=
  ⟨rfl, fun _ => centroidLoop_eq_find _ _⟩

-- ======================= Python value helpers =======================

/-- Python truthiness of a JSON value, as used by `e.get("amount", 0) or 0`:
None, False, zero, the empty string, and empty containers are falsy. -/
def pyTruthy : Json → Bool
  | .null => false
  | .boolean b => b
  | .num q => q ≠ 0
  | .str s => s.length ≠ 0
  | .arr l => !l.isEmpty
  | .obj o => !o.isEmpty

/-- ASCII digit test. -/
def isDigitChar (c : Char) : Bool := '0' ≤ c && c ≤ '9'

/-- Value of a list of decimal digits. -/
def digitsToNat (l : List Char) : Nat :=
  l.foldl (fun a c => 10 * a + (c.toNat - 48)) 0

/-- Model of Python `float(string)` restricted to plain decimal literals
(optional surrounding whitespace, optional sign, digits with an optional
decimal point) — the only string shapes the program's data can contain.
Anything else fails to parse, as `float` raises ValueError. -/
def pyFloatOfString (s : String) : Option ℚ :=
  let l := pyStrip s.toList
  let signAndRest : ℚ × List Char :=
    match l with
    | '+' :: t => (1, t)
    | '-' :: t => (-1, t)
    | t => (1, t)
  let sign := signAndRest.1
  let body := signAndRest.2
  let intPart := body.takeWhile isDigitChar
  let rest := body.dropWhile isDigitChar
  match rest with
  | [] =>
    if intPart.isEmpty then none else some (sign * digitsToNat intPart)
  | '.' :: frac =>
    if frac.all isDigitChar && !(intPart.isEmpty && frac.isEmpty) then
      some (sign * ((digitsToNat intPart : ℚ) +
        (digitsToNat frac : ℚ) / 10 ^ frac.length))
    else none
  | _ => none

/-- Model of Python `float(x)` on a JSON value: numbers and booleans convert,
strings are parsed (ValueError when unparseable), anything else is a
TypeError. -/
def pyFloat : Json → Except String ℚ
  | .num q => .ok q
  | .boolean b => .ok (if b then 1 else 0)
  | .str s =>
    match pyFloatOfString s with
    | some q => .ok q
    | none => .error "ValueError"
  | _ => .error "TypeError"

-- ======================= Insights expense aggregation =======================

/-- One expense of the Insights accumulation loop (app.py line 465):
`float(e.get("amount", 0) or 0)`; the expense itself must be a dict. -/
def expenseAmount : Json → Except String ℚ
  | .obj o =>
    let v := pyGet o "amount" (.num 0)
    pyFloat (if pyTruthy v then v else .num 0)
  | _ => .error "AttributeError"

/-- Sum a list of expense values left to right, propagating the first
exception, as the inner `for e in t.get("expenses", [])` loop does. -/
def sumExpenses : List Json → ℚ → Except String ℚ
  | [], acc => .ok acc
  | e :: rest, acc =>
    match expenseAmount e with
    | .ok amt => sumExpenses rest (acc + amt)
    | .error msg => .error msg

/-- `trip_total` for one trip (app.py lines 463-466): iterate
`t.get("expenses", [])`. Iterating a dict yields its keys and a string its
characters (both then fail as expenses); iterating any other non-list raises
TypeError. -/
def tripExpensesTotal (t : List (String × Json)) : Except String ℚ :=
  match pyGet t "expenses" (.arr []) with
  | .arr es => sumExpenses es 0
  | .obj o => sumExpenses (o.map fun p => Json.str p.1) 0
  | .str s => sumExpenses (s.toList.map fun c => Json.str ⟨[c]⟩) 0
  | _ => .error "TypeError"

/-- `total_expenses` of the Insights page (app.py lines 458-473): sum
`trip_total` over the user's trips; each trip must be a dict. The loop also
builds chart rows from `t.get("destination", ...)` and
`parse_date_str(t.get("start_date","")) or date.today()`, neither of which
can raise or affect the total, so the embedding computes only the total. -/
def total_expenses : List Json → ℚ → Except String ℚ
  | [], acc => .ok acc
  | t :: rest, acc =>
    match t with
    | .obj o =>
      match tripExpensesTotal o with
      | .ok tt => total_expenses rest (acc + tt)
      | .error msg => .error msg
    | _ => .error "AttributeError"

/-- A user's trips whose expense amounts are 10.50, 5 and "bad". -/
def tripsWithBadAmount : List Json :=
  [Json.obj [("destination", .str "Paris"),
             ("start_date", .str "2025-01-01"),
             ("expenses", .arr [.obj [("amount", .num (21/2))],
                                .obj [("amount", .num 5)],
                                .obj [("amount", .str "bad")]])]]

/-- The same trips with the malformed third amount stored as null, and a
fourth expense missing its amount field entirely. -/
def tripsWithNullAmount : List Json :=
  [Json.obj [("destination", .str "Paris"),
             ("start_date", .str "2025-01-01"),
             ("expenses", .arr [.obj [("amount", .num (21/2))],
                                .obj [("amount", .num 5)],
                                .obj [("amount", .null)],
                                .obj []])]]

/-- Helper: an expense whose amount is a non-zero number contributes that
number. -/
theorem expenseAmount_truthy_num (q : ℚ) (h : q ≠ 0) :
    expenseAmount (.obj [("amount", .num q)]) = .ok q := by
  have ht : pyTruthy (.num q) = true := by simp [pyTruthy, h]
  simp only [expenseAmount, pyGet, if_pos, ht]
  rfl

/-- Helper: a successfully converted expense is added to the accumulator. -/
theorem sumExpenses_ok_cons (e : Json) (q : ℚ) (rest : List Json) (acc : ℚ)
    (h : expenseAmount e = .ok q) :
    sumExpenses (e :: rest) acc = sumExpenses rest (acc + q) := by
  simp only [sumExpenses, h]

/-- Helper: a failing conversion aborts the accumulation with its exception. -/
theorem sumExpenses_error_cons (e : Json) (rest : List Json) (acc : ℚ) (msg : String)
    (h : expenseAmount e = .error msg) :
    sumExpenses (e :: rest) acc = .error msg := by
  simp only [sumExpenses, h]

/-- Helper: evaluation of the aggregation over the trips with amounts
[10.50, 5, "bad"]: the third amount is a truthy string, `float("bad")`
raises, and the ValueError propagates. -/
theorem total_expenses_bad_eval :
    total_expenses tripsWithBadAmount 0 = .error "ValueError" := by
  have e1 : expenseAmount (.obj [("amount", .num (21/2))]) = .ok (21/2) :=
    expenseAmount_truthy_num _ (by norm_num)
  have e2 : expenseAmount (.obj [("amount", .num 5)]) = .ok 5 :=
    expenseAmount_truthy_num _ (by norm_num)
  have e3 : expenseAmount (.obj [("amount", .str "bad")]) = .error "ValueError" := rfl
  have tt : tripExpensesTotal
      [("destination", .str "Paris"), ("start_date", .str "2025-01-01"),
       ("expenses", .arr [.obj [("amount", .num (21/2))], .obj [("amount", .num 5)],
                          .obj [("amount", .str "bad")]])] = .error "ValueError" := by
    rw [show tripExpensesTotal
        [("destination", .str "Paris"), ("start_date", .str "2025-01-01"),
         ("expenses", .arr [.obj [("amount", .num (21/2))], .obj [("amount", .num 5)],
                            .obj [("amount", .str "bad")]])]
      = sumExpenses [.obj [("amount", .num (21/2))], .obj [("amount", .num 5)],
                     .obj [("amount", .str "bad")]] 0 from rfl]
    rw [sumExpenses_ok_cons _ _ _ _ e1, sumExpenses_ok_cons _ _ _ _ e2,
      sumExpenses_error_cons _ _ _ _ e3]
  simp only [total_expenses, tripsWithBadAmount, tt]

/-- Helper: evaluation of the aggregation over the trips with amounts
[10.50, 5, null, missing]: falsy and missing amounts contribute 0 and the
total is 15.50. -/
theorem total_expenses_null_eval :
    total_expenses tripsWithNullAmount 0 = .ok (31/2) := by
  have e1 : expenseAmount (.obj [("amount", .num (21/2))]) = .ok (21/2) :=
    expenseAmount_truthy_num _ (by norm_num)
  have e2 : expenseAmount (.obj [("amount", .num 5)]) = .ok 5 :=
    expenseAmount_truthy_num _ (by norm_num)
  have e3 : expenseAmount (.obj [("amount", .null)]) = .ok 0 := rfl
  have e4 : expenseAmount (.obj []) = .ok 0 := rfl
  have tt : tripExpensesTotal
      [("destination", .str "Paris"), ("start_date", .str "2025-01-01"),
       ("expenses", .arr [.obj [("amount", .num (21/2))], .obj [("amount", .num 5)],
                          .obj [("amount", .null)], .obj []])]
      = .ok (0 + 21/2 + 5 + 0 + 0) := by
    rw [show tripExpensesTotal
        [("destination", .str "Paris"), ("start_date", .str "2025-01-01"),
         ("expenses", .arr [.obj [("amount", .num (21/2))], .obj [("amount", .num 5)],
                            .obj [("amount", .null)], .obj []])]
      = sumExpenses [.obj [("amount", .num (21/2))], .obj [("amount", .num 5)],
                     .obj [("amount", .null)], .obj []] 0 from rfl]
    rw [sumExpenses_ok_cons _ _ _ _ e1, sumExpenses_ok_cons _ _ _ _ e2,
      sumExpenses_ok_cons _ _ _ _ e3, sumExpenses_ok_cons _ _ _ _ e4]
    rfl
  simp only [total_expenses, tripsWithNullAmount, tt]
  norm_num

/-- C2 counterexample: over trips whose expense amounts are
[10.50, 5, "bad"], the aggregation raises ValueError — `"bad" or 0` is the
truthy string `"bad"` and `float("bad")` raises — instead of totalling 15.50
as the claim states. -/
theorem c2_counterexample :
    total_expenses tripsWithBadAmount 0 = .error "ValueError" ∧
    total_expenses tripsWithBadAmount 0 ≠ .ok (31/2) := by
  refine ⟨total_expenses_bad_eval, fun h => ?_⟩
  rw [total_expenses_bad_eval] at h
  exact Except.noConfusion h

/-- C2 (amended): the aggregation sums every expense amount across every
trip, a missing or falsy amount (absent field, null, empty string, False, 0)
contributing 0; but a truthy non-numeric amount such as "bad" raises
ValueError, so the claim's trips with amounts [10.50, 5, "bad"] crash the
aggregation rather than totalling 15.50, while the same trips with the
malformed amount null (or with the field missing) total 15.50. -/
theorem c2_falsy_amounts_default_to_zero :
    total_expenses tripsWithNullAmount 0 = .ok (31/2) ∧
    total_expenses tripsWithBadAmount 0 = .error "ValueError" ∧
    expenseAmount (.obj [("amount", .null)]) = .ok 0 ∧
    expenseAmount (.obj [("amount", .str "")]) = .ok 0 ∧
    expenseAmount (.obj [("amount", .boolean false)]) = .ok 0 ∧
    expenseAmount (.obj []) = .ok 0 ∧
    expenseAmount (.obj [("amount", .str "bad")]) = .error "ValueError" :=
  ⟨total_expenses_null_eval, total_expenses_bad_eval, rfl, rfl, rfl, rfl, rfl⟩

-- ======================= Persistence store =======================

/-- Whether an object's field list contains the key. -/
def hasKey (o : List (String × Json)) (k : String) : Bool :=
  o.any (fun p => p.1 = k)

/-- The legacy upgrade of `load_users` (app.py lines 37-45): a bare-string
user record becomes a full record, fields in source order. -/
def userStrUpgrade (s : String) : List (String × Json) :=
  [("password", .str s),
   ("profile_pic", .null),
   ("role", .str "user"),
   ("bio", .str ""),
   ("favorite_destination", .str ""),
   ("goals", .str "")]

/-- The five `setdefault` calls of `load_users` (app.py lines 46-50), in
source order. -/
def userSetdefaults (o : List (String × Json)) : List (String × Json) :=
  setdefault (setdefault (setdefault (setdefault (setdefault o
    "role" (.str "user"))
    "profile_pic" .null)
    "bio" (.str ""))
    "favorite_destination" (.str ""))
    "goals" (.str "")

/-- Per-user processing of `load_users` (app.py lines 36-50): a bare string
is upgraded to a full record, then the setdefaults run; a dict gets the
setdefaults; any other value raises AttributeError at `.setdefault`. -/
def upgradeUserRecord : Json → Except String Json
  | .str s => .ok (.obj (userSetdefaults (userStrUpgrade s)))
  | .obj o => .ok (.obj (userSetdefaults o))
  | _ => .error "AttributeError"

/-- The `for user in list(data.keys())` loop of `load_users`: rewrite each
value in place (iteration order preserved), propagating the first
exception. -/
def loadUsersEntries : List (String × Json) → Except String (List (String × Json))
  | [] => .ok []
  | (u, v) :: rest => do
    let v2 ← upgradeUserRecord v
    let rest2 ← loadUsersEntries rest
    return (u, v2) :: rest2

/-- `load_users` applied to a successfully parsed users document (app.py
lines 35-51): the document must be a dict (`data.keys()`), each value is
upgraded/backfilled. -/
def load_users_json : Json → Except String Json
  | .obj entries => (loadUsersEntries entries).map Json.obj
  | _ => .error "AttributeError"

/-- The eight `setdefault` calls of `load_trips` (app.py lines 68-75), in
source order. -/
def backfillTrip (o : List (String × Json)) : List (String × Json) :=
  setdefault (setdefault (setdefault (setdefault (setdefault (setdefault
    (setdefault (setdefault o
    "destination" (.str ""))
    "start_date" (.str ""))
    "end_date" (.str ""))
    "notes" (.str ""))
    "expenses" (.arr []))
    "checklist" (.arr []))
    "lat" .null)
    "lon" .null

/-- Per-trip processing of `load_trips`: each trip must be a dict, which is
backfilled; anything else raises AttributeError at `.setdefault`. -/
def loadTrip : Json → Except String Json
  | .obj o => .ok (.obj (backfillTrip o))
  | _ => .error "AttributeError"

/-- The inner `for t in trs` loop of `load_trips` building `new_trs`. -/
def loadTripsList : List Json → Except String (List Json)
  | [] => .ok []
  | t :: rest => do
    let t2 ← loadTrip t
    let rest2 ← loadTripsList rest
    return t2 :: rest2

/-- Per-user trips value of `load_trips`: the value must be a list to be
iterated and rebuilt; iterating any other value fails (dict keys and string
characters fail at `.setdefault`, the rest at iteration). -/
def loadUserTrips : Json → Except String Json
  | .arr ts => (loadTripsList ts).map Json.arr
  | .obj o =>
    (loadTripsList (o.map fun p => Json.str p.1)).map Json.arr
  | .str sVal =>
    (loadTripsList (sVal.toList.map fun c => Json.str ⟨[c]⟩)).map Json.arr
  | _ => .error "TypeError"

/-- The `for uname, trs in list(data.items())` loop of `load_trips`. -/
def loadTripsEntries : List (String × Json) → Except String (List (String × Json))
  | [] => .ok []
  | (u, v) :: rest => do
    let v2 ← loadUserTrips v
    let rest2 ← loadTripsEntries rest
    return (u, v2) :: rest2

/-- `load_trips` applied to a successfully parsed trips document (app.py
lines 64-78): the document must be a dict (`data.items()`). -/
def load_trips_json : Json → Except String Json
  | .obj entries => (loadTripsEntries entries).map Json.obj
  | _ => .error "AttributeError"

/-- A backing file as seen by the loaders: `none` when the file is absent,
otherwise the outcome of `json.load` — a JSONDecodeError or a parsed
document. -/
def FileState := Option (Except String Json)

/-- `load_users` (app.py lines 31-54) over a file state: an absent file and
a JSONDecodeError both give an empty mapping (the `except` clause catches
only `json.JSONDecodeError`); a parsed document is processed, and any
exception raised by the processing propagates. -/
def load_users_file : FileState → Except String Json
  | none => .ok (.obj [])
  | some (.error _) => .ok (.obj [])
  | some (.ok doc) => load_users_json doc

/-- `load_trips` (app.py lines 60-81) over a file state, same shape as
`load_users_file`. -/
def load_trips_file : FileState → Except String Json
  | none => .ok (.obj [])
  | some (.error _) => .ok (.obj [])
  | some (.ok doc) => load_trips_json doc

/-- `save_trips` (app.py lines 83-85): `json.dump` serializes the full
mapping, overwriting the file; a subsequent `json.load` of that file yields
the same JSON value, so at the value level the written document is the
mapping itself. -/
def save_trips (trips : Json) : Json := trips

/-- A trip record containing all eight core fields. -/
def completeTrip (o : List (String × Json)) : Bool :=
  hasKey o "destination" && hasKey o "start_date" && hasKey o "end_date" &&
  hasKey o "notes" && hasKey o "expenses" && hasKey o "checklist" &&
  hasKey o "lat" && hasKey o "lon"

/-- A trip value that is a complete record. -/
def completeTripJson : Json → Bool
  | .obj o => completeTrip o
  | _ => false

/-- A user's trips value: a list of complete trip records. -/
def wellFormedUserTrips : Json → Bool
  | .arr ts => ts.all completeTripJson
  | _ => false

/-- A well-formed trips document: a mapping from usernames to lists of
complete trip records. -/
def wellFormedTripsDoc : Json → Bool
  | .obj es => es.all (fun p => wellFormedUserTrips p.2)
  | _ => false

/-- Helper: `setdefault` is the identity when the key is present. -/
theorem setdefault_of_hasKey (o : List (String × Json)) (k : String) (v : Json)
    (h : hasKey o k = true) : setdefault o k v = o := by
  have h2 : (o.any fun p => p.1 = k) = true := h
  simp [setdefault, h2]

/-- Helper: the eight-field backfill is the identity on complete records. -/
theorem backfillTrip_complete (o : List (String × Json))
    (h : completeTrip o = true) : backfillTrip o = o := by
  simp only [completeTrip, Bool.and_eq_true] at h
  obtain ⟨⟨⟨⟨⟨⟨⟨h1, h2⟩, h3⟩, h4⟩, h5⟩, h6⟩, h7⟩, h8⟩ := h
  simp only [backfillTrip,
    setdefault_of_hasKey _ _ _ h1, setdefault_of_hasKey _ _ _ h2,
    setdefault_of_hasKey _ _ _ h3, setdefault_of_hasKey _ _ _ h4,
    setdefault_of_hasKey _ _ _ h5, setdefault_of_hasKey _ _ _ h6,
    setdefault_of_hasKey _ _ _ h7, setdefault_of_hasKey _ _ _ h8]

/-- Helper: loading a complete trip record returns it unchanged. -/
theorem loadTrip_complete : ∀ t : Json, completeTripJson t = true → loadTrip t = .ok t
  | .obj o, h => by
    simp only [loadTrip]
    rw [backfillTrip_complete o h]
  | .null, h => Bool.noConfusion h
  | .boolean _, h => Bool.noConfusion h
  | .num _, h => Bool.noConfusion h
  | .str _, h => Bool.noConfusion h
  | .arr _, h => Bool.noConfusion h

/-- Helper: loading a list of complete trip records returns it unchanged. -/
theorem loadTripsList_complete (ts : List Json) (h : ts.all completeTripJson = true) :
    loadTripsList ts = .ok ts := by
  induction ts with
  | nil => rfl
  | cons t rest ih =>
    simp only [List.all_cons, Bool.and_eq_true] at h
    simp only [loadTripsList, loadTrip_complete t h.1, ih h.2]
    rfl

/-- Helper: loading a well-formed trips value returns it unchanged. -/
theorem loadUserTrips_wf : ∀ v : Json, wellFormedUserTrips v = true → loadUserTrips v = .ok v
  | .arr ts, h => by
    simp only [loadUserTrips, loadTripsList_complete ts h]
    rfl
  | .null, h => Bool.noConfusion h
  | .boolean _, h => Bool.noConfusion h
  | .num _, h => Bool.noConfusion h
  | .str _, h => Bool.noConfusion h
  | .obj _, h => Bool.noConfusion h

/-- Helper: loading the entries of a well-formed trips document returns them
unchanged. -/
theorem loadTripsEntries_wf (es : List (String × Json))
    (h : es.all (fun p => wellFormedUserTrips p.2) = true) :
    loadTripsEntries es = .ok es := by
  induction es with
  | nil => rfl
  | cons p rest ih =>
    simp only [List.all_cons, Bool.and_eq_true] at h
    obtain ⟨u, v⟩ := p
    simp only [loadTripsEntries, loadUserTrips_wf v h.1, ih h.2]
    rfl

/-- C7: for every well-formed trips mapping (every trip record complete),
saving, loading back, and saving again yields the same document; the
load-time backfill is the identity on complete records, so
`save_trips (load_trips (save_trips T)) = T`. -/
theorem c7_save_load_save_roundtrip (T : Json) (h : wellFormedTripsDoc T = true) :
    (load_trips_json (save_trips T)).map save_trips = .ok T := by
  cases T with
  | obj es =>
    simp only [save_trips, load_trips_json, loadTripsEntries_wf es h]
    rfl
  | null => exact Bool.noConfusion h
  | boolean b => exact Bool.noConfusion h
  | num q => exact Bool.noConfusion h
  | str sVal => exact Bool.noConfusion h
  | arr l => exact Bool.noConfusion h

/-- A concrete well-formed trips document with one user and one complete
trip record. -/
def demoTripsDoc : Json :=
  .obj [("alice", .arr [.obj
    [("destination", .str "Paris"),
     ("start_date", .str "2025-06-03"),
     ("end_date", .str "2025-06-07"),
     ("notes", .str "spring"),
     ("expenses", .arr [.obj [("amount", .num 5)]]),
     ("checklist", .arr [.obj [("text", .str "passport"), ("done", .boolean false)]]),
     ("lat", .num (4885/100)),
     ("lon", .null)]])]

/-- Witness for C7: the round trip applied to `demoTripsDoc`. -/
theorem c7_save_load_save_roundtrip_witness :
    wellFormedTripsDoc demoTripsDoc = true ∧
    (load_trips_json (save_trips demoTripsDoc)).map save_trips = .ok demoTripsDoc :=
  ⟨rfl, c7_save_load_save_roundtrip demoTripsDoc rfl⟩

/-- C6: when the backing file is absent, or present with contents on which
`json.load` fails (a JSONDecodeError, the only exception the loaders catch),
both `load_users` and `load_trips` return an empty mapping and raise no
exception. -/
theorem c6_parse_failure_yields_empty :
    ∀ msg : String,
      load_users_file none = .ok (.obj []) ∧
      load_users_file (some (.error msg)) = .ok (.obj []) ∧
      load_trips_file none = .ok (.obj []) ∧
      load_trips_file (some (.error msg)) = .ok (.obj []) :=
  fun _ => ⟨rfl, rfl, rfl, rfl⟩

/-- Helper: upgrading a legacy bare-string record: the replacement dict
already carries all six fields, so the subsequent setdefaults are no-ops. -/
theorem upgradeUserRecord_str (s : String) :
    upgradeUserRecord (.str s) = .ok (.obj (userStrUpgrade s)) := rfl

/-- Helper: loading a users document all of whose values are legacy bare
strings upgrades every record. -/
theorem loadUsersEntries_allStr (users : List (String × String)) :
    loadUsersEntries (users.map fun p => (p.1, Json.str p.2)) =
      .ok (users.map fun p => (p.1, Json.obj (userStrUpgrade p.2))) := by
  induction users with
  | nil => rfl
  | cons p rest ih =>
    simp only [List.map_cons, loadUsersEntries, upgradeUserRecord_str, ih]
    rfl

/-- C8: loading a users document in which usernames map to legacy bare-string
passwords yields for each username the full record whose password field is
that string, whose role is "user", whose profile_pic is null, and whose bio,
favorite_destination and goals are empty strings. -/
theorem c8_legacy_string_upgraded :
    (∀ users : List (String × String),
      load_users_json (.obj (users.map fun p => (p.1, Json.str p.2))) =
        .ok (.obj (users.map fun p => (p.1, Json.obj (userStrUpgrade p.2))))) ∧
    ∀ s : String,
      pyGet (userStrUpgrade s) "password" .null = .str s ∧
      pyGet (userStrUpgrade s) "role" .null = .str "user" ∧
      pyGet (userStrUpgrade s) "profile_pic" (.str "missing") = .null ∧
      pyGet (userStrUpgrade s) "bio" .null = .str "" ∧
      pyGet (userStrUpgrade s) "favorite_destination" .null = .str "" ∧
      pyGet (userStrUpgrade s) "goals" .null = .str "" := by
  constructor
  · intro users
    simp only [load_users_json, loadUsersEntries_allStr users]
    rfl
  · intro s
    exact ⟨rfl, rfl, rfl, rfl, rfl, rfl⟩

-- ======================= Credential verifier and login =======================

/-- Model of the external bcrypt library's `checkpw`: it raises ValueError
("Invalid salt") when the stored hash is not in bcrypt modular-crypt format
(such as a legacy plain-text password), and otherwise reports whether the
password matches the hash. The match itself is opaque cryptography on which
no claim depends; it is modelled as equality with a canonical encoding of
the password. -/
def bcrypt_checkpw (password hashed : String) : Except String Bool :=
  if startsWithChars "$2".toList hashed.toList then
    .ok (hashed = "$2b$12$" ++ password)
  else
    .error "ValueError: Invalid salt"

/-- `check_password` (app.py lines 90-91): encodes both strings and calls
`bcrypt.checkpw`; encoding never fails on strings, so at the value level it
is the `checkpw` call. -/
def check_password (password hashed : String) : Except String Bool :=
  bcrypt_checkpw password hashed

/-- Python dict lookup returning the stored value when the key is present. -/
def dictFind : List (String × Json) → String → Option Json
  | [], _ => none
  | (k1, v) :: rest, k => if k1 = k then some v else dictFind rest k

/-- The Login button handler (app.py lines 360-370):
`if username in users and check_password(password, users[username]['password'])`
— `ok true` is a successful login, `ok false` shows "Invalid credentials.",
and `error` is an exception that propagates out of the handler (there is no
try/except around the condition). An unknown username short-circuits the
`and`; a known user's record is indexed at 'password' (a non-dict record or
a non-string stored password fails before `checkpw`). -/
def login_click (users : List (String × Json)) (username password : String) :
    Except String Bool :=
  match dictFind users username with
  | none => .ok false
  | some (Json.obj fields) =>
    match dictFind fields "password" with
    | some (Json.str hashed) => check_password password hashed
    | some _ => .error "AttributeError"
    | none => .error "KeyError"
  | some _ => .error "TypeError"

/-- C5: a users file storing the legacy plain-text password "secret123" for
"alice" loads into a full record whose password field is "secret123"; the
login handler applied to that record then raises bcrypt's ValueError —
"secret123" is not a bcrypt hash — and the exception propagates as a crash
instead of being reported as invalid credentials (`ok false`), contradicting
the documented design. -/
theorem c5_malformed_hash_crashes_login :
    load_users_json (.obj [("alice", .str "secret123")]) =
      .ok (.obj [("alice", .obj (userStrUpgrade "secret123"))]) ∧
    login_click [("alice", .obj (userStrUpgrade "secret123"))] "alice" "anypass" =
      .error "ValueError: Invalid salt" ∧
    login_click [("alice", .obj (userStrUpgrade "secret123"))] "alice" "anypass" ≠
      .ok false := by
  refine ⟨rfl, rfl, fun h => ?_⟩
  rw [show login_click [("alice", .obj (userStrUpgrade "secret123"))] "alice" "anypass"
      = .error "ValueError: Invalid salt" from rfl] at h
  exact Except.noConfusion h

-- ======================= Dates and reminders =======================

/-- A calendar date as held by `datetime.date`. -/
structure PyDate where
  year : Nat
  month : Nat
  day : Nat

/-- Gregorian leap-year rule. -/
def isLeap (y : Nat) : Bool :=
  y % 4 = 0 && (y % 100 ≠ 0 || y % 400 = 0)

/-- Length of a month in the proleptic Gregorian calendar. -/
def daysInMonth (y m : Nat) : Nat :=
  if m = 2 then (if isLeap y then 29 else 28)
  else if m = 4 || m = 6 || m = 9 || m = 11 then 30
  else 31

/-- Days in year `y` before the first of month `m`. -/
def daysBeforeMonth (y m : Nat) : Nat :=
  ((List.range (m - 1)).map (fun i => daysInMonth y (i + 1))).sum

/-- `datetime.date.toordinal`: day count with January 1 of year 1 as day 1. -/
def toOrdinal (d : PyDate) : Nat :=
  365 * (d.year - 1) + (d.year - 1) / 4 - (d.year - 1) / 100 + (d.year - 1) / 400 +
    daysBeforeMonth d.year d.month + d.day

/-- `(d1 - d2).days`: the signed day difference of two dates. -/
def dateDiff (d1 d2 : PyDate) : Int :=
  (toOrdinal d1 : Int) - (toOrdinal d2 : Int)

/-- Split a character list on a separator (no separator consumes two
groups; empty groups are kept, as `str.split` with an explicit separator). -/
def splitOnChar (sep : Char) (l : List Char) : List (List Char) :=
  l.foldr
    (fun c acc =>
      if c = sep then [] :: acc
      else
        match acc with
        | [] => [[c]]
        | g :: gs => (c :: g) :: gs)
    [[]]

/-- `parse_date_str` (app.py lines 231-235) on a JSON value:
`datetime.strptime(s, "%Y-%m-%d")` succeeds exactly on strings of the form
year(1-4 digits, ≥ 1)-month(1-2 digits, 1..12)-day(1-2 digits, valid for the
month) with nothing left over; the bare `except Exception` also swallows the
TypeError raised when the value is not a string, so every failure returns
None. -/
def parse_date_str : Json → Option PyDate
  | .str s =>
    match splitOnChar '-' s.toList with
    | [ys, ms, ds] =>
      if 1 ≤ ys.length && ys.length ≤ 4 && ys.all isDigitChar &&
         1 ≤ ms.length && ms.length ≤ 2 && ms.all isDigitChar &&
         1 ≤ ds.length && ds.length ≤ 2 && ds.all isDigitChar then
        let y := digitsToNat ys
        let m := digitsToNat ms
        let d := digitsToNat ds
        if 1 ≤ y && 1 ≤ m && m ≤ 12 && 1 ≤ d && d ≤ daysInMonth y m then
          some ⟨y, m, d⟩
        else none
      else none
    | _ => none
  | _ => none

/-- `trigger_reminders` (app.py lines 237-244) over a user's trips and a
value of `today`: for each trip, parse `t.get("start_date", "")`; `continue`
when it fails; toast `(destination, days_left)` when
`0 <= days_left <= 3`. The toasts are collected in order. -/
def trigger_reminders (today : PyDate) :
    List (List (String × Json)) → List (Json × Int)
  | [] => []
  | t :: rest =>
    match parse_date_str (pyGet t "start_date" (.str "")) with
    | none => trigger_reminders today rest
    | some d =>
      let days_left := dateDiff d today
      if 0 ≤ days_left ∧ days_left ≤ 3 then
        (pyGet t "destination" (.str "(unknown)"), days_left) ::
          trigger_reminders today rest
      else trigger_reminders today rest

/-- The spec's selection rule (spec §4.4): a trip is reported, with its
destination and `days_until_start = start_date − today`, exactly when its
start date parses and `days_until_start` lies in the closed range [0, 3]. -/
def reminderSelect (today : PyDate) (t : List (String × Json)) :
    Option (Json × Int) :=
  match parse_date_str (pyGet t "start_date" (.str "")) with
  | none => none
  | some d =>
    if 0 ≤ dateDiff d today ∧ dateDiff d today ≤ 3 then
      some (pyGet t "destination" (.str "(unknown)"), dateDiff d today)
    else none

/-- Trips for the concrete reminder example: one starting 2025-06-03, one
starting 2025-06-10, one with an unparseable start date. -/
def juneTrips : List (List (String × Json)) :=
  [[("destination", .str "Paris"), ("start_date", .str "2025-06-03")],
   [("destination", .str "Rome"), ("start_date", .str "2025-06-10")],
   [("destination", .str "Nowhere"), ("start_date", .str "soon")]]

/-- C9: the reminder computation selects exactly the trips whose start date
parses as "YYYY-MM-DD" and whose day difference to today lies in [0, 3],
reporting each with that difference, and silently skips unparseable start
dates; with today = 2025-06-01 a trip starting 2025-06-03 is reported with
days_until_start = 2 while one starting 2025-06-10 (9 days away) is not. -/
theorem c9_reminders_select_zero_to_three :
    (∀ (today : PyDate) (trips : List (List (String × Json))),
      trigger_reminders today trips = trips.filterMap (reminderSelect today)) ∧
    trigger_reminders ⟨2025, 6, 1⟩ juneTrips = [(Json.str "Paris", 2)] ∧
    dateDiff ⟨2025, 6, 3⟩ ⟨2025, 6, 1⟩ = 2 ∧
    dateDiff ⟨2025, 6, 10⟩ ⟨2025, 6, 1⟩ = 9 ∧
    parse_date_str (.str "soon") = none := by
  refine ⟨fun today trips => ?_, rfl, rfl, rfl, rfl⟩
  induction trips with
  | nil => rfl
  | cons t rest ih =>
    simp only [trigger_reminders, List.filterMap_cons, reminderSelect]
    cases hp : parse_date_str (pyGet t "start_date" (.str "")) with
    | none => simp [hp, ih]
    | some d =>
      by_cases hc : 0 ≤ dateDiff d today ∧ dateDiff d today ≤ 3
      · simp [hp, hc, ih]
      · simp [hp, hc, ih]

end TravelViz
